import Mathlib

/-!
Shallow embedding of the NEXUSX authentication backend
(backend/src: models/User.ts, utils/redis.ts, utils/jwt.ts,
services/AuthService.ts, middleware/auth.ts, controllers/AuthController.ts,
config/index.ts), together with theorems settling the spec claims.

Conventions of the embedding:
- JavaScript `undefined`/`null` on a string-valued slot is `Option String`
  with `none`; JS truthiness of such a slot is `jsTruthy` (empty string is
  falsy, like in JS).
- The PostgreSQL `users` table is a `List User` (insertion order = row
  order; `rows[0]` of a filtered SELECT is `List.find?`).
- Redis is an association list from key to value together with an absolute
  expiry instant; `SETEX key ttl v` at time `now` stores expiry `now + ttl`
  and `GET` at time `now` returns the value only while `now < expiry`.
- `uuidv4()` and `gen_random_uuid()` are modelled by passing the freshly
  minted identifier as an explicit argument.
- Thrown `Error(msg)` values are `Except.error msg`; the thrown message
  strings are kept verbatim.
-/

namespace NexusX

/-- JS truthiness of a possibly-absent string: `undefined`, `null` and the
empty string are falsy, every other string is truthy. -/
def jsTruthy : Option String → Bool
  | none => false
  | some s => s != ""

/-- JS `a || b` on possibly-absent strings. -/
def jsOrElse (a b : Option String) : Option String :=
  if jsTruthy a then a else b

/-- The `|| null` coercion `UserModel.create` applies to each optional
column: a falsy value (absent or empty string) is stored as NULL. -/
def jsOrNull (a : Option String) : Option String :=
  if jsTruthy a then a else none

/-- JS `s.toLowerCase()` (ASCII case mapping, character by character). -/
def toLowerCase (s : String) : String :=
  String.mk (s.data.map Char.toLower)

/-- JS `s.split(sep)` for a one-character separator. -/
def jsSplit (s : String) (sep : Char) : List String :=
  (s.data.splitOn sep).map String.mk

/-! ## models/User.ts: the `users` table -/

/-- A row of the `users` table (interface `User` in models/User.ts).
Timestamps are abstract instants (`Nat`). -/
structure User where
  id : String
  email : String
  password_hash : Option String
  first_name : Option String
  last_name : Option String
  google_id : Option String
  auth_method : String
  profile_picture_url : Option String
  created_at : Nat
  updated_at : Nat
  is_active : Bool
deriving Repr, DecidableEq

/-- The `users` table: a list of rows in insertion order. -/
abbrev Database := List User

/-- Argument object of `UserModel.create`. -/
structure CreateUserData where
  email : String
  password_hash : Option String
  first_name : Option String
  last_name : Option String
  google_id : Option String
  auth_method : String
  profile_picture_url : Option String
deriving Repr, DecidableEq

namespace UserModel

/-- The row the INSERT of `UserModel.create` stores for `d`: every
optional column passes through the source's `|| null` coercion, the id
comes from `gen_random_uuid()` (passed in as `newId`), `is_active`
defaults to true and both timestamps to the current instant. -/
def createdRow (now : Nat) (newId : String) (d : CreateUserData) : User :=
  { id := newId
    email := d.email
    password_hash := jsOrNull d.password_hash
    first_name := jsOrNull d.first_name
    last_name := jsOrNull d.last_name
    google_id := jsOrNull d.google_id
    auth_method := d.auth_method
    profile_picture_url := jsOrNull d.profile_picture_url
    created_at := now
    updated_at := now
    is_active := true }

/-- `UserModel.create`: `INSERT ... RETURNING *`. The promise rejects when
the `UNIQUE(email)` or `UNIQUE(google_id)` constraint of init.ts is
violated by any existing row, active or deactivated, with the database
driver's duplicate-key message (a NULL `google_id` never conflicts; when
both constraints are violated the database reports one of them — modelled
as the email constraint first). On success, returns the inserted row and
the new table. -/
def create (db : Database) (now : Nat) (newId : String) (d : CreateUserData) :
    Except String (User × Database) :=
  if db.any (fun v => v.email == d.email) then
    .error "duplicate key value violates unique constraint \"users_email_key\""
  else if (match jsOrNull d.google_id with
      | some g => db.any (fun v => v.google_id == some g)
      | none => false) then
    .error "duplicate key value violates unique constraint \"users_google_id_key\""
  else
    .ok (createdRow now newId d, db ++ [createdRow now newId d])

/-- `UserModel.findByEmail`:
`SELECT * FROM users WHERE email = $1 AND is_active = true` with the
argument lower-cased; `rows[0] || null`. -/
def findByEmail (db : Database) (email : String) : Option User :=
  db.find? (fun u => u.email == toLowerCase email && u.is_active)

/-- `UserModel.findById`:
`SELECT * FROM users WHERE id = $1 AND is_active = true`; `rows[0] || null`. -/
def findById (db : Database) (id : String) : Option User :=
  db.find? (fun u => u.id == id && u.is_active)

/-- `UserModel.findByGoogleId`:
`SELECT * FROM users WHERE google_id = $1 AND is_active = true`;
`rows[0] || null`. A row whose `google_id` is NULL never matches. -/
def findByGoogleId (db : Database) (googleId : String) : Option User :=
  db.find? (fun u => u.google_id == some googleId && u.is_active)

/-- The update object `UserModel.update` receives at its one auth call site
(`AuthService.googleAuth`): a field that is `none` is absent from the
update and left unchanged. -/
structure UserUpdate where
  google_id : Option String
  auth_method : Option String
  profile_picture_url : Option (Option String)
deriving Repr, DecidableEq

/-- Effect of one `UPDATE ... SET` on one row: present fields are
overwritten, `updated_at` is set to the current instant. -/
def applyUpdate (now : Nat) (upd : UserUpdate) (u : User) : User :=
  { u with
    google_id := match upd.google_id with
      | some g => some g
      | none => u.google_id
    auth_method := match upd.auth_method with
      | some a => a
      | none => u.auth_method
    profile_picture_url := match upd.profile_picture_url with
      | some p => p
      | none => u.profile_picture_url
    updated_at := now }

/-- The table after `UPDATE ... WHERE id = $n` rewrites the matching rows. -/
def updatedTable (db : Database) (now : Nat) (id : String)
    (upd : UserUpdate) : Database :=
  db.map (fun u => if u.id == id then applyUpdate now upd u else u)

/-- `UserModel.update`: `UPDATE users SET ... WHERE id = $n RETURNING *`
(no `is_active` filter). The promise rejects with the driver's
duplicate-key message when the update writes a `google_id` already held by
a different row (active or deactivated); update objects carry no email, so
only that constraint applies. On success, returns `rows[0] || null` and
the new table. -/
def update (db : Database) (now : Nat) (id : String) (upd : UserUpdate) :
    Except String (Option User × Database) :=
  if (match upd.google_id with
      | some g => db.any (fun v => !(v.id == id) && v.google_id == some g)
      | none => false) then
    .error "duplicate key value violates unique constraint \"users_google_id_key\""
  else
    .ok ((updatedTable db now id upd).find? (fun u => u.id == id),
      updatedTable db now id upd)

/-- The shape `getUserProfile` returns: every `User` field except
`password_hash`, which the rest-destructuring in `getUserProfile` drops. -/
structure SafeUser where
  id : String
  email : String
  first_name : Option String
  last_name : Option String
  google_id : Option String
  auth_method : String
  profile_picture_url : Option String
  created_at : Nat
  updated_at : Nat
  is_active : Bool
deriving Repr, DecidableEq

/-- Drop the `password_hash` field from a row. -/
def toSafeUser (u : User) : SafeUser :=
  { id := u.id
    email := u.email
    first_name := u.first_name
    last_name := u.last_name
    google_id := u.google_id
    auth_method := u.auth_method
    profile_picture_url := u.profile_picture_url
    created_at := u.created_at
    updated_at := u.updated_at
    is_active := u.is_active }

/-- `UserModel.getUserProfile`: `findById`, then strip `password_hash`. -/
def getUserProfile (db : Database) (id : String) : Option SafeUser :=
  match findById db id with
  | none => none
  | some u => some (toSafeUser u)

end UserModel

/-! ## config/index.ts -/

/-- `config.session.expiry` (seconds), default `SESSION_EXPIRY = 86400`. -/
def configSessionExpiry : Nat := 86400

/-- `config.jwt.secret`, default `"your-secret-key"`. -/
def configJwtSecret : String := "your-secret-key"

/-! ## utils/redis.ts: session cache -/

/-- The Redis keyspace restricted to what this service uses: entries of
key, stored string value, and absolute expiry instant. At most one live
entry per key (SETEX replaces). -/
abbrev RedisStore := List (String × String × Nat)

/-- `SETEX key ttl v` at instant `now`: replace any entry at `key` with
value `v` expiring at `now + ttl`. -/
def redisSetEx (s : RedisStore) (now : Nat) (key : String) (ttl : Nat)
    (v : String) : RedisStore :=
  (key, v, now + ttl) :: s.filter (fun e => !(e.1 == key))

/-- `GET key` at instant `now`: the stored value while unexpired, else
nothing (Redis deletes on expiry). -/
def redisGet (s : RedisStore) (now : Nat) (key : String) : Option String :=
  match s.find? (fun e => e.1 == key) with
  | some (_, v, expiresAt) => if now < expiresAt then some v else none
  | none => none

/-- `DEL key`: remove the entry; absent keys are a no-op. -/
def redisDel (s : RedisStore) (key : String) : RedisStore :=
  s.filter (fun e => !(e.1 == key))

/-- Remaining time-to-live of a key at instant `now`: `TTL key`, `none`
when the key is absent or already expired. -/
def remainingTTL (s : RedisStore) (now : Nat) (key : String) : Option Nat :=
  match s.find? (fun e => e.1 == key) with
  | some (_, _, expiresAt) => if now < expiresAt then some (expiresAt - now) else none
  | none => none

/-- The cache key `session:${tokenId}` used by all three session helpers. -/
def sessionKey (tokenId : String) : String := "session:" ++ tokenId

/-- `storeSession(userId, tokenId, ttl)`: `SETEX session:tokenId ttl userId`.
The TypeScript parameter `ttl` defaults to `config.session.expiry`; callers
that omit it must pass `configSessionExpiry` here. -/
def storeSession (s : RedisStore) (now : Nat) (userId tokenId : String)
    (ttl : Nat) : RedisStore :=
  redisSetEx s now (sessionKey tokenId) ttl userId

/-- The value the `storeSession` promise resolves with: the TypeScript
function body has no return statement, so it is always `undefined`. -/
def storeSessionResult : Option String := none

namespace Redis

/-- `validateSession(tokenId)` in utils/redis.ts: a plain
`GET session:tokenId`, returning the stored user id or null. -/
def validateSession (s : RedisStore) (now : Nat) (tokenId : String) :
    Option String :=
  redisGet s now (sessionKey tokenId)

end Redis

/-- `invalidateSession(tokenId)`: `DEL session:tokenId`. -/
def invalidateSession (s : RedisStore) (tokenId : String) : RedisStore :=
  redisDel s (sessionKey tokenId)

/-! ## utils/jwt.ts: bearer credential -/

/-- The JWT claims this service signs (`TokenPayload`). -/
structure TokenPayload where
  userId : String
  email : String
  tokenId : String
deriving Repr, DecidableEq

/-- A signed bearer credential: the payload together with the secret it was
signed under (signature validity = secret equality in this model). -/
structure SignedToken where
  payload : TokenPayload
  secret : String
deriving Repr, DecidableEq

/-- `generateToken(payload, tokenId)`: sign the payload, embedding the
per-session `tokenId`, under `config.jwt.secret`. -/
def generateToken (userId email tokenId : String) : SignedToken :=
  { payload := { userId := userId, email := email, tokenId := tokenId }
    secret := configJwtSecret }

/-- `verifyToken(token)`: the payload when the signature verifies against
`config.jwt.secret`, otherwise null. -/
def verifyToken (t : SignedToken) : Option TokenPayload :=
  if t.secret == configJwtSecret then some t.payload else none

/-! ## services/AuthService.ts -/

/-- The redacted user view inside `AuthResponse`: the six fields the
service copies out of the row (no `password_hash`, no timestamps, no
`is_active`). -/
structure PublicUser where
  id : String
  email : String
  first_name : Option String
  last_name : Option String
  profile_picture_url : Option String
  auth_method : String
deriving Repr, DecidableEq

/-- The object literal each auth path builds for the response user. -/
def redactUser (u : User) : PublicUser :=
  { id := u.id
    email := u.email
    first_name := u.first_name
    last_name := u.last_name
    profile_picture_url := u.profile_picture_url
    auth_method := u.auth_method }

/-- `AuthResponse`: the credential plus the redacted user view. -/
structure AuthResponse where
  accessToken : SignedToken
  user : PublicUser
deriving Repr, DecidableEq

/-- The registration email check, the literal regex
`^[^\s@]+@[^\s@]+\.[^\s@]+$`: exactly one `@`; a nonempty run of
non-whitespace, non-`@` characters before it; after it, a dot with a
nonempty such run on each side (the runs may themselves contain dots). -/
def emailFormatOk (email : String) : Bool :=
  match email.toList.splitOn '@' with
  | [localPart, domain] =>
    !localPart.isEmpty &&
    localPart.all (fun c => !c.isWhitespace) &&
    domain.all (fun c => !c.isWhitespace) &&
    (List.range domain.length).any (fun i =>
      domain.get? i == some '.' && decide (0 < i) && decide (i + 1 < domain.length))
  | _ => false

namespace AuthService

/-- `AuthService.register(email, password, firstName, lastName)`.
`hashPassword` (utils/password.ts, a bcrypt wrapper not under src/) is
passed in as a function; `newUserId` and `tokenId` stand for the
`gen_random_uuid()` / `uuidv4()` values minted during the call. Errors are
the thrown messages, verbatim. -/
def register (hashPassword : String → String) (db : Database)
    (s : RedisStore) (now : Nat) (newUserId tokenId : String)
    (email password : String) (firstName lastName : Option String) :
    Except String (AuthResponse × Database × RedisStore) :=
  if email == "" || password == "" then
    .error "Email and password are required"
  else if !emailFormatOk email then
    .error "Invalid email format"
  else if password.length < 6 then
    .error "Password must be at least 6 characters"
  else match UserModel.findByEmail db email with
  | some _ => .error "Email already registered"
  | none =>
    let passwordHash := hashPassword password
    match UserModel.create db now newUserId
      { email := toLowerCase email
        password_hash := some passwordHash
        first_name := firstName
        last_name := lastName
        google_id := none
        auth_method := "email"
        profile_picture_url := none } with
    | .error msg => .error msg
    | .ok created =>
      let user := created.1
      let accessToken := generateToken user.id user.email tokenId
      let s2 := storeSession s now user.id tokenId configSessionExpiry
      .ok ({ accessToken := accessToken, user := redactUser user },
        created.2, s2)

/-- `AuthService.login(email, password)`. `comparePassword`
(utils/password.ts, not under src/) is passed in as a function. -/
def login (comparePassword : String → String → Bool) (db : Database)
    (s : RedisStore) (now : Nat) (tokenId : String)
    (email password : String) :
    Except String (AuthResponse × RedisStore) :=
  if email == "" || password == "" then
    .error "Email and password are required"
  else match UserModel.findByEmail db email with
  | none => .error "Invalid email or password"
  | some user =>
    if !jsTruthy user.password_hash then
      .error "This account uses a different authentication method"
    else if !comparePassword password (user.password_hash.getD "") then
      .error "Invalid email or password"
    else
      let accessToken := generateToken user.id user.email tokenId
      let s2 := storeSession s now user.id tokenId configSessionExpiry
      .ok ({ accessToken := accessToken, user := redactUser user }, s2)

/-- The Google profile shape `AuthService.googleAuth` receives: provider
id, optional display name, and the (possibly empty) `emails` / `photos`
arrays of which only the first entry is read. -/
structure GoogleProfile where
  id : String
  displayName : Option String
  emails : List String
  photos : List String
deriving Repr, DecidableEq

/-- `AuthService.googleAuth(profile)`: look up by Google id, else by email
(linking the Google id), else create; fail when the provider supplied no
email. -/
def googleAuth (db : Database) (s : RedisStore) (now : Nat)
    (newUserId tokenId : String) (profile : GoogleProfile) :
    Except String (AuthResponse × Database × RedisStore) :=
  let googleId := profile.id
  let emailOpt := profile.emails.head?
  let displayName := (profile.displayName).getD ""
  let profilePictureUrl := profile.photos.head?
  if !jsTruthy emailOpt then
    .error "Email not provided by Google"
  else
    let email := emailOpt.getD ""
    let afterLookup : Except String (Option User × Database) :=
      match UserModel.findByGoogleId db googleId with
      | some user => .ok (some user, db)
      | none =>
        match UserModel.findByEmail db email with
        | none =>
          let parts := jsSplit displayName ' '
          match UserModel.create db now newUserId
            { email := toLowerCase email
              password_hash := none
              first_name := parts.get? 0
              last_name := parts.get? 1
              google_id := some googleId
              auth_method := "google"
              profile_picture_url := profilePictureUrl } with
          | .error msg => .error msg
          | .ok created => .ok (some created.1, created.2)
        | some user =>
          UserModel.update db now user.id
            { google_id := some googleId
              auth_method := some "google"
              profile_picture_url :=
                some (jsOrElse profilePictureUrl user.profile_picture_url) }
    match afterLookup with
    | .error msg => .error msg
    | .ok (none, _) => .error "Failed to authenticate with Google"
    | .ok (some user, db2) =>
      let accessToken := generateToken user.id user.email tokenId
      let s2 := storeSession s now user.id tokenId configSessionExpiry
      .ok ({ accessToken := accessToken, user := redactUser user }, db2, s2)

/-- `AuthService.logout(tokenId)`: delete the session entry. -/
def logout (s : RedisStore) (tokenId : String) : RedisStore :=
  invalidateSession s tokenId

/-- `AuthService.validateSession(tokenId, userId)`: calls
`storeSession(userId, tokenId)` — a write, with the TTL argument left to
its default `config.session.expiry` — and compares the promise's resolved
value (always `undefined`, i.e. `storeSessionResult`) against `userId`
with JS `===`. Returns the boolean and the mutated cache. -/
def validateSession (s : RedisStore) (now : Nat) (tokenId userId : String) :
    Bool × RedisStore :=
  let s2 := storeSession s now userId tokenId configSessionExpiry
  (storeSessionResult == some userId, s2)

end AuthService

/-! ## middleware/auth.ts -/

/-- Outcome of `authMiddleware`: either the request proceeds with the
verified payload attached, or it is answered `401` with an error string. -/
inductive AuthOutcome where
  | ok (payload : TokenPayload)
  | unauthorized (error : String)
deriving Repr, DecidableEq

/-- `authMiddleware(req, res, next)`, after header extraction: `none`
stands for a missing or non-`Bearer` Authorization header; otherwise the
token is signature-verified and the session entry is looked up in Redis
(JS truthiness: a null — expired or deleted — entry rejects). -/
def authMiddleware (s : RedisStore) (now : Nat)
    (bearer : Option SignedToken) : AuthOutcome :=
  match bearer with
  | none => .unauthorized "Missing authorization token"
  | some token =>
    match verifyToken token with
    | none => .unauthorized "Invalid token"
    | some payload =>
      if !jsTruthy (Redis.validateSession s now payload.tokenId) then
        .unauthorized "Session expired or invalid"
      else
        .ok payload

/-! ## controllers/AuthController.ts -/

/-- An HTTP reply from the auth controllers: status code and either the
success payload or the error message of the failure body. -/
inductive AuthHttpReply where
  | success (status : Nat) (data : AuthResponse)
  | failure (status : Nat) (error : String)
deriving Repr, DecidableEq

/-- The HTTP status of a reply. -/
def AuthHttpReply.status : AuthHttpReply → Nat
  | .success st _ => st
  | .failure st _ => st

namespace AuthController

/-- `AuthController.register`: 201 with the service result on success,
400 with the thrown message on any failure. -/
def register (hashPassword : String → String) (db : Database)
    (s : RedisStore) (now : Nat) (newUserId tokenId : String)
    (email password : String) (firstName lastName : Option String) :
    AuthHttpReply × Database × RedisStore :=
  match AuthService.register hashPassword db s now newUserId tokenId
      email password firstName lastName with
  | .ok (result, db2, s2) => (.success 201 result, db2, s2)
  | .error msg => (.failure 400 msg, db, s)

/-- `AuthController.login`: 200 with the service result on success,
401 with the thrown message on any failure. -/
def login (comparePassword : String → String → Bool) (db : Database)
    (s : RedisStore) (now : Nat) (tokenId : String)
    (email password : String) : AuthHttpReply × RedisStore :=
  match AuthService.login comparePassword db s now tokenId email password with
  | .ok (result, s2) => (.success 200 result, s2)
  | .error msg => (.failure 401 msg, s)

/-- Reply of `GET /auth/me` after the middleware: status plus profile or
error. -/
inductive MeReply where
  | found (profile : UserModel.SafeUser)
  | missing (status : Nat) (error : String)
deriving Repr, DecidableEq

/-- `AuthController.me`: 401 without a verified payload, 404 when the
profile lookup misses, 200 with the redacted profile otherwise. -/
def me (db : Database) (payload : Option TokenPayload) : MeReply :=
  match payload with
  | none => .missing 401 "Not authenticated"
  | some p =>
    match UserModel.getUserProfile db p.userId with
    | none => .missing 404 "User not found"
    | some profile => .found profile

end AuthController

/-! ## Auxiliary definitions for stating the claims -/

/-- The three messages `AuthService.register` throws for malformed input —
the spec's `ValidationError` kind at the `/auth/register` boundary. -/
def registerValidationMessages : List String :=
  ["Email and password are required",
   "Invalid email format",
   "Password must be at least 6 characters"]

/-- A reply is a validation failure when it is a 400 carrying one of the
three validation messages. -/
def isValidationFailureReply : AuthHttpReply → Bool
  | .failure status msg => status == 400 && registerValidationMessages.contains msg
  | .success _ _ => false

/-- Sample row: an active account created through Google only (no stored
password hash). -/
def googleOnlyUser : User :=
  { id := "u1"
    email := "g@x.com"
    password_hash := none
    first_name := none
    last_name := none
    google_id := some "g123"
    auth_method := "google"
    profile_picture_url := none
    created_at := 0
    updated_at := 0
    is_active := true }

/-- Sample row: an active email/password account. -/
def emailUser : User :=
  { id := "u2"
    email := "a@b.com"
    password_hash := some "Hsecret123"
    first_name := some "A"
    last_name := none
    google_id := none
    auth_method := "email"
    profile_picture_url := none
    created_at := 0
    updated_at := 0
    is_active := true }

/-- Sample row: a deactivated email/password account. -/
def inactiveUser : User :=
  { id := "u3"
    email := "c@d.com"
    password_hash := some "Hpw123456"
    first_name := none
    last_name := none
    google_id := some "g999"
    auth_method := "email"
    profile_picture_url := none
    created_at := 0
    updated_at := 0
    is_active := false }

/-- A sample successful auth response, used to instantiate theorems. -/
def sampleAuthResponse : AuthResponse :=
  { accessToken := generateToken "u2" "a@b.com" "tok"
    user := redactUser emailUser }

/-- The row created by registering `x@y.com` at instant 7 (hash function
prepending "H"). -/
def newEmailRow : User :=
  { id := "uid1"
    email := "x@y.com"
    password_hash := some "Hsecret123"
    first_name := some "X"
    last_name := none
    google_id := none
    auth_method := "email"
    profile_picture_url := none
    created_at := 7
    updated_at := 7
    is_active := true }

/-- The response of that registration. -/
def regWitnessResponse : AuthResponse :=
  { accessToken := generateToken "uid1" "x@y.com" "tok1"
    user := { id := "uid1"
              email := "x@y.com"
              first_name := some "X"
              last_name := none
              profile_picture_url := none
              auth_method := "email" } }

/-- The response of logging `emailUser` in under token id `tok2`. -/
def logWitnessResponse : AuthResponse :=
  { accessToken := generateToken "u2" "a@b.com" "tok2"
    user := redactUser emailUser }

/-- The response of a Google login resolving `googleOnlyUser` directly by
provider id under token id `tok3`. -/
def googWitnessResponse : AuthResponse :=
  { accessToken := generateToken "u1" "g@x.com" "tok3"
    user := redactUser googleOnlyUser }

/-- A Google profile whose email matches `emailUser`. -/
def sampleGoogleProfile : AuthService.GoogleProfile :=
  { id := "g77"
    displayName := some "A B"
    emails := ["a@b.com"]
    photos := [] }

/-- The update object `googleAuth` builds when linking
`sampleGoogleProfile` to `emailUser`. -/
def sampleLinkUpdate : UserModel.UserUpdate :=
  { google_id := some "g77"
    auth_method := some "google"
    profile_picture_url := some none }

/-- The creation object `googleAuth` builds for `sampleGoogleProfile` when
no record matches. -/
def sampleCreateData : CreateUserData :=
  { email := "a@b.com"
    password_hash := none
    first_name := some "A"
    last_name := some "B"
    google_id := some "g77"
    auth_method := "google"
    profile_picture_url := none }

/-! ## Helper lemmas about the session cache -/

theorem find?_filter_not_key (s : RedisStore) (key k : String)
    (h : (k == key) = false) :
    (s.filter fun e => !(e.1 == key)).find? (fun e => e.1 == k)
      = s.find? (fun e => e.1 == k) := by
  have hne : k ≠ key := by simpa using h
  induction s with
  | nil => rfl
  | cons a t ih =>
    by_cases hak : a.1 = key
    · have hkf : (a.1 == k) = false := by
        rw [hak]
        exact beq_eq_false_iff_ne.mpr (fun hh => hne hh.symm)
      rw [List.filter_cons_of_neg (by simp [hak]),
        List.find?_cons_of_neg (p := fun (e : String × String × Nat) => e.1 == k) t (by simp [hkf]), ih]
    · rw [List.filter_cons_of_pos (by simp [hak])]
      by_cases hk3 : (a.1 == k) = true
      · rw [List.find?_cons_of_pos (p := fun (e : String × String × Nat) => e.1 == k) _ (by simp [hk3]),
          List.find?_cons_of_pos (p := fun (e : String × String × Nat) => e.1 == k) t (by simp [hk3])]
      · rw [List.find?_cons_of_neg (p := fun (e : String × String × Nat) => e.1 == k) _ (by simp [hk3]),
          List.find?_cons_of_neg (p := fun (e : String × String × Nat) => e.1 == k) t (by simp [hk3]), ih]

theorem redisGet_redisDel_self (s : RedisStore) (now : Nat) (key : String) :
    redisGet (redisDel s key) now key = none := by
  unfold redisGet redisDel
  have h : (s.filter fun e => !(e.1 == key)).find? (fun e => e.1 == key) = none := by
    rw [List.find?_eq_none]
    intro x hx
    have hpx := List.of_mem_filter hx
    simp only [Bool.not_eq_true'] at hpx
    simp [hpx]
  rw [h]

theorem redisGet_redisDel_other (s : RedisStore) (now : Nat) (key k : String)
    (h : (k == key) = false) :
    redisGet (redisDel s key) now k = redisGet s now k := by
  unfold redisGet redisDel
  rw [find?_filter_not_key s key k h]

theorem redisDel_idem (s : RedisStore) (key : String) :
    redisDel (redisDel s key) key = redisDel s key := by
  unfold redisDel
  induction s with
  | nil => rfl
  | cons a t ih =>
    cases hak : a.1 == key <;> simp [List.filter_cons, hak, ih]

theorem validateSession_storeSession (s : RedisStore) (now : Nat)
    (userId tokenId : String) :
    Redis.validateSession (storeSession s now userId tokenId configSessionExpiry)
      now tokenId = some userId := by
  have h0 : 0 < configSessionExpiry := by decide
  have h1 : now < now + configSessionExpiry := by omega
  unfold Redis.validateSession storeSession redisSetEx redisGet
  rw [List.find?_cons_of_pos _ (by simp)]
  show (if now < now + configSessionExpiry then some userId else none)
    = some userId
  rw [if_pos h1]

theorem remainingTTL_storeSession (s : RedisStore) (now : Nat)
    (userId tokenId : String) :
    remainingTTL (storeSession s now userId tokenId configSessionExpiry) now
      (sessionKey tokenId) = some configSessionExpiry := by
  have h0 : 0 < configSessionExpiry := by decide
  have h1 : now < now + configSessionExpiry := by omega
  unfold storeSession redisSetEx remainingTTL
  rw [List.find?_cons_of_pos _ (by simp)]
  show (if now < now + configSessionExpiry
      then some (now + configSessionExpiry - now) else none)
    = some configSessionExpiry
  rw [if_pos h1]
  simp only [Option.some.injEq]
  omega

/-! ## Claims -/

/-- C4: `AuthService.validateSession` compares `storeSession`'s resolved
value (always `undefined`) against the string user id, so it returns
`false` for every token id and user id. -/
theorem claim_C4 (s : RedisStore) (now : Nat) (tokenId userId : String) :
    (AuthService.validateSession s now tokenId userId).1 = false := rfl

/-- C3 counterexample: the claim that the session-validity check leaves the
entry's remaining time-to-live unchanged is false: an entry with 10 seconds
left has the full 86400 seconds again after the check, because the omitted
`ttl` argument defaults to `config.session.expiry` and `SETEX` always sets
a fresh TTL. -/
theorem claim_C3_counterexample :
    remainingTTL [(sessionKey "t", "u", 50)] 40 (sessionKey "t") = some 10
    ∧ remainingTTL
        (AuthService.validateSession [(sessionKey "t", "u", 50)] 40 "t" "u").2
        40 (sessionKey "t") = some 86400
    ∧ (86400 : Nat) ≠ 10 :=
  ⟨rfl, rfl, by decide⟩

/-- C3 (amended): `AuthService.validateSession` overwrites the session
cache entry with `storeSession` rather than only reading it, and since the
omitted TTL argument defaults to `config.session.expiry`, the write resets
the entry's remaining time-to-live to the full configured expiry (creating
the entry when absent) instead of leaving it unchanged. -/
theorem claim_C3 (s : RedisStore) (now : Nat) (tokenId userId : String) :
    (AuthService.validateSession s now tokenId userId).2
      = storeSession s now userId tokenId configSessionExpiry
    ∧ remainingTTL (AuthService.validateSession s now tokenId userId).2 now
        (sessionKey tokenId) = some configSessionExpiry := by
  exact ⟨rfl, remainingTTL_storeSession s now userId tokenId⟩

/-- C9: logout deletes the session cache entry for the given session
identifier unconditionally (the entry reads as absent afterwards, other
keys are untouched) and is idempotent: a second logout of the same
identifier leaves the cache unchanged, and neither call can fail. -/
theorem claim_C9 (s : RedisStore) (tokenId : String) (now : Nat) (k : String)
    (hk : k ≠ sessionKey tokenId) :
    AuthService.logout (AuthService.logout s tokenId) tokenId
      = AuthService.logout s tokenId
    ∧ Redis.validateSession (AuthService.logout s tokenId) now tokenId = none
    ∧ redisGet (AuthService.logout s tokenId) now k = redisGet s now k := by
  have hkb : (k == sessionKey tokenId) = false := by
    simpa using hk
  refine ⟨?_, ?_, ?_⟩
  · exact redisDel_idem s (sessionKey tokenId)
  · exact redisGet_redisDel_self s now (sessionKey tokenId)
  · exact redisGet_redisDel_other s now (sessionKey tokenId) k hkb

/-- Witness for C9 at a concrete store, token id and unrelated key. -/
theorem claim_C9_witness :
    "other" ≠ sessionKey "a"
    ∧ (AuthService.logout (AuthService.logout [(sessionKey "a", "u", 5)] "a") "a"
        = AuthService.logout [(sessionKey "a", "u", 5)] "a"
      ∧ Redis.validateSession (AuthService.logout [(sessionKey "a", "u", 5)] "a") 0 "a"
        = none
      ∧ redisGet (AuthService.logout [(sessionKey "a", "u", 5)] "a") 0 "other"
        = redisGet [(sessionKey "a", "u", 5)] 0 "other") :=
  ⟨by decide, claim_C9 [(sessionKey "a", "u", 5)] "a" 0 "other" (by decide)⟩

/-- C2 counterexample: the three login failure modes do not share one
message. A login against an account with no stored password hash (created
through Google only) fails with a distinct message, revealing that the
account exists. -/
theorem claim_C2_counterexample :
    AuthService.login (fun _ _ => false) [googleOnlyUser] [] 0 "t" "g@x.com" "pw"
      = .error "This account uses a different authentication method"
    ∧ ("This account uses a different authentication method" : String)
        ≠ "Invalid email or password" :=
  ⟨rfl, by decide⟩

/-- C2 (amended): an unknown email and a non-matching secret both fail with
the identical message "Invalid email or password", but an account with no
stored password hash (external-identity-only) fails with the distinct
message "This account uses a different authentication method", so that
failure mode is distinguishable. -/
theorem claim_C2 (cmp : String → String → Bool) (db : Database)
    (s : RedisStore) (now : Nat) (tokenId : String)
    (email password : String) (user : User)
    (hemail : email ≠ "") (hpw : password ≠ "") :
    (UserModel.findByEmail db email = none →
      AuthService.login cmp db s now tokenId email password
        = .error "Invalid email or password")
    ∧ (UserModel.findByEmail db email = some user →
        jsTruthy user.password_hash = true →
        cmp password (user.password_hash.getD "") = false →
        AuthService.login cmp db s now tokenId email password
          = .error "Invalid email or password")
    ∧ (UserModel.findByEmail db email = some user →
        jsTruthy user.password_hash = false →
        AuthService.login cmp db s now tokenId email password
          = .error "This account uses a different authentication method") := by
  have he : (email == "") = false := by simpa using hemail
  have hp : (password == "") = false := by simpa using hpw
  refine ⟨?_, ?_, ?_⟩
  · intro h1
    simp [AuthService.login, he, hp, h1]
  · intro h1 h2 h3
    simp [AuthService.login, he, hp, h1, h2, h3]
  · intro h1 h2
    simp [AuthService.login, he, hp, h1, h2]

/-- Witness for C2 with a Google-only account in the table. -/
theorem claim_C2_witness :
    ("g@x.com" : String) ≠ "" ∧ ("pw" : String) ≠ ""
    ∧ ((UserModel.findByEmail [googleOnlyUser] "g@x.com" = none →
        AuthService.login (fun _ _ => false) [googleOnlyUser] [] 0 "t" "g@x.com" "pw"
          = .error "Invalid email or password")
      ∧ (UserModel.findByEmail [googleOnlyUser] "g@x.com" = some googleOnlyUser →
          jsTruthy googleOnlyUser.password_hash = true →
          (fun (_ _ : String) => false) "pw" (googleOnlyUser.password_hash.getD "") = false →
          AuthService.login (fun _ _ => false) [googleOnlyUser] [] 0 "t" "g@x.com" "pw"
            = .error "Invalid email or password")
      ∧ (UserModel.findByEmail [googleOnlyUser] "g@x.com" = some googleOnlyUser →
          jsTruthy googleOnlyUser.password_hash = false →
          AuthService.login (fun _ _ => false) [googleOnlyUser] [] 0 "t" "g@x.com" "pw"
            = .error "This account uses a different authentication method")) :=
  ⟨by decide, by decide,
   claim_C2 (fun _ _ => false) [googleOnlyUser] [] 0 "t" "g@x.com" "pw"
     googleOnlyUser (by decide) (by decide)⟩

/-- C6 counterexample: a `POST /auth/login` request with a missing email is
answered 401, not 400: the login controller maps every thrown error —
validation failures included — to status 401. -/
theorem claim_C6_counterexample :
    (AuthController.login (fun _ _ => false) [] [] 0 "t" "" "pw").1
      = .failure 401 "Email and password are required"
    ∧ AuthHttpReply.status
        ((AuthController.login (fun _ _ => false) [] [] 0 "t" "" "pw").1) ≠ 400 :=
  ⟨rfl, by decide⟩

/-- C6 (amended): `POST /auth/login` returns 200 with the access token and
user view on success, and 401 with the thrown message on every failure —
bad credentials and malformed input alike; malformed input (e.g. a missing
email) is not mapped to 400. -/
theorem claim_C6 (cmp : String → String → Bool) (db : Database)
    (s : RedisStore) (now : Nat) (tokenId : String)
    (email password : String) (r : AuthResponse) (s2 : RedisStore)
    (msg : String) :
    (AuthService.login cmp db s now tokenId email password = .ok (r, s2) →
      AuthController.login cmp db s now tokenId email password
        = (.success 200 r, s2))
    ∧ (AuthService.login cmp db s now tokenId email password = .error msg →
      AuthController.login cmp db s now tokenId email password
        = (.failure 401 msg, s))
    ∧ (email = "" →
      AuthController.login cmp db s now tokenId email password
        = (.failure 401 "Email and password are required", s)) := by
  refine ⟨?_, ?_, ?_⟩
  · intro h
    simp [AuthController.login, h]
  · intro h
    simp [AuthController.login, h]
  · intro h
    subst h
    simp [AuthController.login, AuthService.login]

/-- Witness for C6: a login with empty email against an empty table. -/
theorem claim_C6_witness :
    (AuthService.login (fun _ _ => false) [] [] 0 "t" "" "pw"
        = .ok (sampleAuthResponse, []) →
      AuthController.login (fun _ _ => false) [] [] 0 "t" "" "pw"
        = (.success 200 sampleAuthResponse, []))
    ∧ (AuthService.login (fun _ _ => false) [] [] 0 "t" "" "pw"
        = .error "Email and password are required" →
      AuthController.login (fun _ _ => false) [] [] 0 "t" "" "pw"
        = (.failure 401 "Email and password are required", []))
    ∧ ("" = "" →
      AuthController.login (fun _ _ => false) [] [] 0 "t" "" "pw"
        = (.failure 401 "Email and password are required", [])) :=
  claim_C6 (fun _ _ => false) [] [] 0 "t" "" "pw" sampleAuthResponse []
    "Email and password are required"

theorem redisGet_value_mem (s : RedisStore) (now : Nat) (key v : String)
    (h : redisGet s now key = some v) : ∃ e ∈ s, e.2.1 = v := by
  unfold redisGet at h
  cases hf : s.find? (fun e => e.1 == key) with
  | none => rw [hf] at h; exact absurd h (by simp)
  | some a =>
    rw [hf] at h
    have hmem := List.mem_of_find?_eq_some hf
    obtain ⟨k1, v1, e1⟩ := a
    have h2 : (if now < e1 then some v1 else none) = some v := h
    by_cases hlt : now < e1
    · rw [if_pos hlt] at h2
      exact ⟨(k1, v1, e1), hmem, by simpa using h2⟩
    · rw [if_neg hlt] at h2
      exact absurd h2 (by simp)

/-- C10: the three lookups used by the auth flows return only rows whose
active flag is true; when every row matching the key is deactivated the
lookup returns null, so a deactivated user's login fails with the same
"Invalid email or password" as an unknown email, and a profile fetch for a
deactivated user answers 404. -/
theorem claim_C10 (db : Database) (cmp : String → String → Bool)
    (s : RedisStore) (now : Nat) (tokenId : String)
    (e i g pw : String) (u : User)
    (hemail : e ≠ "") (hpw : pw ≠ "") :
    (UserModel.findByEmail db e = some u → u.is_active = true)
    ∧ (UserModel.findById db i = some u → u.is_active = true)
    ∧ (UserModel.findByGoogleId db g = some u → u.is_active = true)
    ∧ (db.all (fun v => !(v.email == toLowerCase e && v.is_active)) = true →
        UserModel.findByEmail db e = none
        ∧ AuthService.login cmp db s now tokenId e pw
            = .error "Invalid email or password")
    ∧ (db.all (fun v => !(v.id == i && v.is_active)) = true →
        UserModel.getUserProfile db i = none
        ∧ AuthController.me db (some { userId := i, email := e, tokenId := tokenId })
            = .missing 404 "User not found") := by
  have he : (e == "") = false := by simpa using hemail
  have hp : (pw == "") = false := by simpa using hpw
  refine ⟨?_, ?_, ?_, ?_, ?_⟩
  · intro h
    have hfound := List.find?_some h
    exact (Bool.and_eq_true_iff.mp hfound).2
  · intro h
    have hfound := List.find?_some h
    exact (Bool.and_eq_true_iff.mp hfound).2
  · intro h
    have hfound := List.find?_some h
    exact (Bool.and_eq_true_iff.mp hfound).2
  · intro hall
    have hnone : UserModel.findByEmail db e = none := by
      unfold UserModel.findByEmail
      rw [List.find?_eq_none]
      intro x hx
      have := List.all_eq_true.mp hall x hx
      simp only [Bool.not_eq_true'] at this
      simp [this]
    exact ⟨hnone, by simp [AuthService.login, he, hp, hnone]⟩
  · intro hall
    have hnone : UserModel.findById db i = none := by
      unfold UserModel.findById
      rw [List.find?_eq_none]
      intro x hx
      have := List.all_eq_true.mp hall x hx
      simp only [Bool.not_eq_true'] at this
      simp [this]
    refine ⟨?_, ?_⟩
    · simp [UserModel.getUserProfile, hnone]
    · simp [AuthController.me, UserModel.getUserProfile, hnone]

/-- Witness for C10 on a table holding only a deactivated account. -/
theorem claim_C10_witness :
    ("c@d.com" : String) ≠ "" ∧ ("pw123456" : String) ≠ ""
    ∧ ((UserModel.findByEmail [inactiveUser] "c@d.com" = some inactiveUser →
        inactiveUser.is_active = true)
      ∧ (UserModel.findById [inactiveUser] "u3" = some inactiveUser →
          inactiveUser.is_active = true)
      ∧ (UserModel.findByGoogleId [inactiveUser] "g999" = some inactiveUser →
          inactiveUser.is_active = true)
      ∧ ([inactiveUser].all
            (fun v => !(v.email == toLowerCase "c@d.com" && v.is_active)) = true →
          UserModel.findByEmail [inactiveUser] "c@d.com" = none
          ∧ AuthService.login (fun _ _ => true) [inactiveUser] [] 0 "t"
              "c@d.com" "pw123456" = .error "Invalid email or password")
      ∧ ([inactiveUser].all (fun v => !(v.id == "u3" && v.is_active)) = true →
          UserModel.getUserProfile [inactiveUser] "u3" = none
          ∧ AuthController.me [inactiveUser]
              (some { userId := "u3", email := "c@d.com", tokenId := "t" })
              = .missing 404 "User not found")) :=
  ⟨by decide, by decide,
   claim_C10 [inactiveUser] (fun _ _ => true) [] 0 "t" "c@d.com" "u3" "g999"
     "pw123456" inactiveUser (by decide) (by decide)⟩

/-- C1: for a bearer credential whose signature verifies, the middleware
admits the request exactly when a live session entry under the embedded
session identifier exists (given that stored session values — user ids —
are nonempty strings); after the entry is deleted (logout) or once it has
expired, the same still-valid-by-signature credential is rejected with the
401 reply "Session expired or invalid". -/
theorem claim_C1 (s s0 : RedisStore) (now t0 ttl : Nat) (uid : String)
    (tok : SignedToken) (payload : TokenPayload)
    (hv : verifyToken tok = some payload)
    (hs : s.all (fun e => e.2.1 != "") = true) :
    (authMiddleware s now (some tok) = .ok payload ↔
      (Redis.validateSession s now payload.tokenId).isSome = true)
    ∧ authMiddleware (invalidateSession s payload.tokenId) now (some tok)
        = .unauthorized "Session expired or invalid"
    ∧ (now ≥ t0 + ttl →
        authMiddleware (storeSession s0 t0 uid payload.tokenId ttl) now (some tok)
          = .unauthorized "Session expired or invalid") := by
  refine ⟨?_, ?_, ?_⟩
  · cases hg : Redis.validateSession s now payload.tokenId with
    | none => simp [authMiddleware, hv, hg, jsTruthy]
    | some v =>
      obtain ⟨en, hmem, hval⟩ := redisGet_value_mem s now
        (sessionKey payload.tokenId) v hg
      have hvne : (v != "") = true := by
        have := List.all_eq_true.mp hs en hmem
        rw [hval] at this
        exact this
      simp [authMiddleware, hv, hg, jsTruthy, hvne]
  · have hnone : Redis.validateSession (invalidateSession s payload.tokenId)
        now payload.tokenId = none :=
      redisGet_redisDel_self s now (sessionKey payload.tokenId)
    simp [authMiddleware, hv, hnone, jsTruthy]
  · intro hge
    have hnone : Redis.validateSession
        (storeSession s0 t0 uid payload.tokenId ttl) now payload.tokenId
        = none := by
      unfold Redis.validateSession storeSession redisSetEx redisGet
      rw [List.find?_cons_of_pos _ (by simp)]
      show (if now < t0 + ttl then some uid else none) = none
      rw [if_neg (by omega)]
    simp [authMiddleware, hv, hnone, jsTruthy]

/-- Witness for C1: a verifying credential with a live entry, its deleted
variant, and an expired write. -/
theorem claim_C1_witness :
    verifyToken (generateToken "u" "a@b.com" "t")
      = some { userId := "u", email := "a@b.com", tokenId := "t" }
    ∧ [(sessionKey "t", "u", 10)].all (fun e => e.2.1 != "") = true
    ∧ ((authMiddleware [(sessionKey "t", "u", 10)] 5
          (some (generateToken "u" "a@b.com" "t"))
          = .ok { userId := "u", email := "a@b.com", tokenId := "t" } ↔
        (Redis.validateSession [(sessionKey "t", "u", 10)] 5 "t").isSome = true)
      ∧ authMiddleware (invalidateSession [(sessionKey "t", "u", 10)] "t") 5
          (some (generateToken "u" "a@b.com" "t"))
          = .unauthorized "Session expired or invalid"
      ∧ (5 ≥ 0 + 3 →
          authMiddleware (storeSession [] 0 "u" "t" 3) 5
            (some (generateToken "u" "a@b.com" "t"))
            = .unauthorized "Session expired or invalid")) :=
  ⟨rfl, by decide,
   claim_C1 [(sessionKey "t", "u", 10)] [] 5 0 3 "u"
     (generateToken "u" "a@b.com" "t")
     { userId := "u", email := "a@b.com", tokenId := "t" }
     rfl (by decide)⟩

/-- C5: registration with a malformed email or a password shorter than 6 is
answered 400 with one of the validation messages; a well-formed request
whose email an active row already holds is answered 400
"Email already registered", and one whose email only a deactivated row
holds is answered 400 with the database's duplicate-key message (the
conflict kind again); otherwise — no row at all holding the email — the
controller answers 201 with the access token and redacted user, the table
gains exactly the new row holding the newly hashed secret (optional name
fields stored through the falsy-to-NULL coercion), and the session entry
is written under the fresh token id. -/
theorem claim_C5 (hash : String → String) (db : Database) (s : RedisStore)
    (now : Nat) (newUserId tokenId : String) (email password : String)
    (firstName lastName : Option String) (u : User) :
    (emailFormatOk email = false ∨ password.length < 6 →
      isValidationFailureReply
        (AuthController.register hash db s now newUserId tokenId email
          password firstName lastName).1 = true)
    ∧ (emailFormatOk email = true → ¬(password.length < 6) →
        UserModel.findByEmail db email = some u →
        (AuthController.register hash db s now newUserId tokenId email
          password firstName lastName).1
          = .failure 400 "Email already registered")
    ∧ (emailFormatOk email = true → ¬(password.length < 6) →
        UserModel.findByEmail db email = none →
        db.any (fun v => v.email == toLowerCase email) = true →
        (AuthController.register hash db s now newUserId tokenId email
          password firstName lastName).1
          = .failure 400
            "duplicate key value violates unique constraint \"users_email_key\"")
    ∧ (emailFormatOk email = true → ¬(password.length < 6) →
        UserModel.findByEmail db email = none →
        db.any (fun v => v.email == toLowerCase email) = false →
        AuthController.register hash db s now newUserId tokenId email
          password firstName lastName
          = (.success 201
              { accessToken := generateToken newUserId (toLowerCase email) tokenId
                user := { id := newUserId
                          email := toLowerCase email
                          first_name := jsOrNull firstName
                          last_name := jsOrNull lastName
                          profile_picture_url := none
                          auth_method := "email" } },
             db ++ [{ id := newUserId
                      email := toLowerCase email
                      password_hash := jsOrNull (some (hash password))
                      first_name := jsOrNull firstName
                      last_name := jsOrNull lastName
                      google_id := none
                      auth_method := "email"
                      profile_picture_url := none
                      created_at := now
                      updated_at := now
                      is_active := true }],
             storeSession s now newUserId tokenId configSessionExpiry)) := by
  refine ⟨?_, ?_, ?_, ?_⟩
  · intro hbad
    cases hguard : (email == "" || password == "") with
    | true =>
      simp [AuthController.register, AuthService.register, hguard,
        isValidationFailureReply, registerValidationMessages]
    | false =>
      cases hfmt : emailFormatOk email with
      | false =>
        simp [AuthController.register, AuthService.register, hguard, hfmt,
          isValidationFailureReply, registerValidationMessages]
      | true =>
        have hlen : password.length < 6 := by
          rcases hbad with hb | hb
          · rw [hfmt] at hb; cases hb
          · exact hb
        simp [AuthController.register, AuthService.register, hguard, hfmt,
          hlen, isValidationFailureReply, registerValidationMessages]
  · intro hfmt hlen hfound
    have he : (email == "") = false := by
      rcases eq_or_ne email "" with rfl | hne
      · rw [show emailFormatOk "" = false from by decide] at hfmt; cases hfmt
      · simpa using hne
    have hp : (password == "") = false := by
      rcases eq_or_ne password "" with rfl | hne
      · exact absurd (by decide : ("" : String).length < 6) hlen
      · simpa using hne
    simp [AuthController.register, AuthService.register, he, hp, hfmt, hlen,
      hfound]
  · intro hfmt hlen hnone hdup
    have he : (email == "") = false := by
      rcases eq_or_ne email "" with rfl | hne
      · rw [show emailFormatOk "" = false from by decide] at hfmt; cases hfmt
      · simpa using hne
    have hp : (password == "") = false := by
      rcases eq_or_ne password "" with rfl | hne
      · exact absurd (by decide : ("" : String).length < 6) hlen
      · simpa using hne
    simp [AuthController.register, AuthService.register, UserModel.create,
      he, hp, hfmt, hlen, hnone, hdup]
  · intro hfmt hlen hnone hfree
    have he : (email == "") = false := by
      rcases eq_or_ne email "" with rfl | hne
      · rw [show emailFormatOk "" = false from by decide] at hfmt; cases hfmt
      · simpa using hne
    have hp : (password == "") = false := by
      rcases eq_or_ne password "" with rfl | hne
      · exact absurd (by decide : ("" : String).length < 6) hlen
      · simpa using hne
    simp [AuthController.register, AuthService.register, UserModel.create,
      UserModel.createdRow, redactUser, jsOrNull, jsTruthy,
      he, hp, hfmt, hlen, hnone, hfree]

/-- Witness for C5: registering a fresh email over a one-row table. -/
theorem claim_C5_witness :
    ((emailFormatOk "x@y.com" = false ∨ ("secret123" : String).length < 6 →
      isValidationFailureReply
        (AuthController.register (fun p => String.append "H" p) [emailUser] []
          7 "uid1" "tok1" "x@y.com" "secret123" (some "X") none).1 = true)
    ∧ (emailFormatOk "x@y.com" = true → ¬(("secret123" : String).length < 6) →
        UserModel.findByEmail [emailUser] "x@y.com" = some emailUser →
        (AuthController.register (fun p => String.append "H" p) [emailUser] []
          7 "uid1" "tok1" "x@y.com" "secret123" (some "X") none).1
          = .failure 400 "Email already registered")
    ∧ (emailFormatOk "x@y.com" = true → ¬(("secret123" : String).length < 6) →
        UserModel.findByEmail [emailUser] "x@y.com" = none →
        [emailUser].any (fun v => v.email == toLowerCase "x@y.com") = true →
        (AuthController.register (fun p => String.append "H" p) [emailUser] []
          7 "uid1" "tok1" "x@y.com" "secret123" (some "X") none).1
          = .failure 400
            "duplicate key value violates unique constraint \"users_email_key\"")
    ∧ (emailFormatOk "x@y.com" = true → ¬(("secret123" : String).length < 6) →
        UserModel.findByEmail [emailUser] "x@y.com" = none →
        [emailUser].any (fun v => v.email == toLowerCase "x@y.com") = false →
        AuthController.register (fun p => String.append "H" p) [emailUser] []
          7 "uid1" "tok1" "x@y.com" "secret123" (some "X") none
          = (.success 201
              { accessToken := generateToken "uid1" (toLowerCase "x@y.com") "tok1"
                user := { id := "uid1"
                          email := toLowerCase "x@y.com"
                          first_name := jsOrNull (some "X")
                          last_name := jsOrNull none
                          profile_picture_url := none
                          auth_method := "email" } },
             [emailUser] ++ [{ id := "uid1"
                               email := toLowerCase "x@y.com"
                               password_hash :=
                                 jsOrNull (some (String.append "H" "secret123"))
                               first_name := jsOrNull (some "X")
                               last_name := jsOrNull none
                               google_id := none
                               auth_method := "email"
                               profile_picture_url := none
                               created_at := 7
                               updated_at := 7
                               is_active := true }],
             storeSession [] 7 "uid1" "tok1" configSessionExpiry))) :=
  claim_C5 (fun p => String.append "H" p) [emailUser] [] 7 "uid1" "tok1"
    "x@y.com" "secret123" (some "X") none emailUser


theorem register_ok_shape (hash : String → String) (db : Database)
    (s : RedisStore) (now : Nat) (newUserId tokenId : String)
    (email password : String) (firstName lastName : Option String)
    (r : AuthResponse) (db2 : Database) (s2 : RedisStore)
    (h : AuthService.register hash db s now newUserId tokenId email password
      firstName lastName = .ok (r, db2, s2)) :
    r.accessToken = generateToken r.user.id r.user.email tokenId
    ∧ s2 = storeSession s now r.user.id tokenId configSessionExpiry := by
  simp only [AuthService.register] at h
  split at h
  · cases h
  · split at h
    · cases h
    · split at h
      · cases h
      · split at h
        · cases h
        · split at h
          · cases h
          · simp only [Except.ok.injEq, Prod.mk.injEq] at h
            obtain ⟨h1, h2, h3⟩ := h
            subst h1; subst h2; subst h3
            exact ⟨rfl, rfl⟩

theorem login_ok_shape (cmp : String → String → Bool) (db : Database)
    (s : RedisStore) (now : Nat) (tokenId : String)
    (email password : String) (r : AuthResponse) (s2 : RedisStore)
    (h : AuthService.login cmp db s now tokenId email password
      = .ok (r, s2)) :
    r.accessToken = generateToken r.user.id r.user.email tokenId
    ∧ s2 = storeSession s now r.user.id tokenId configSessionExpiry := by
  unfold AuthService.login at h
  split at h
  · cases h
  · split at h
    · cases h
    · split at h
      · cases h
      · split at h
        · cases h
        · simp only [Except.ok.injEq, Prod.mk.injEq] at h
          obtain ⟨h1, h2⟩ := h
          subst h1; subst h2
          exact ⟨rfl, rfl⟩

theorem googleAuth_ok_shape (db : Database) (s : RedisStore) (now : Nat)
    (newUserId tokenId : String) (profile : AuthService.GoogleProfile)
    (r : AuthResponse) (db2 : Database) (s2 : RedisStore)
    (h : AuthService.googleAuth db s now newUserId tokenId profile
      = .ok (r, db2, s2)) :
    r.accessToken = generateToken r.user.id r.user.email tokenId
    ∧ s2 = storeSession s now r.user.id tokenId configSessionExpiry := by
  simp only [AuthService.googleAuth] at h
  split at h
  · cases h
  · split at h
    · cases h
    · cases h
    · simp only [Except.ok.injEq, Prod.mk.injEq] at h
      obtain ⟨h1, h2, h3⟩ := h
      subst h1; subst h2; subst h3
      exact ⟨rfl, rfl⟩

/-- C8: every successful authentication path (register, login, Google
login) returns a credential signed under the configured secret whose
payload embeds the freshly minted session identifier and matches the
returned user view, writes the session entry under that identifier with
the full configured time-to-live, and the redacted user view is
independent of the stored password hash (the hash is never part of it). -/
theorem claim_C8 (hash : String → String) (cmp : String → String → Bool)
    (dbR dbL dbG : Database) (s : RedisStore) (now : Nat)
    (newUserIdR newUserIdG tokenIdR tokenIdL tokenIdG : String)
    (email password emailL passwordL : String)
    (firstName lastName : Option String)
    (profile : AuthService.GoogleProfile) (u : User) (x : Option String)
    (rReg rLog rGoog : AuthResponse) (dbReg dbGoog : Database)
    (sReg sLog sGoog : RedisStore)
    (hReg : AuthService.register hash dbR s now newUserIdR tokenIdR email
      password firstName lastName = .ok (rReg, dbReg, sReg))
    (hLog : AuthService.login cmp dbL s now tokenIdL emailL passwordL
      = .ok (rLog, sLog))
    (hGoog : AuthService.googleAuth dbG s now newUserIdG tokenIdG profile
      = .ok (rGoog, dbGoog, sGoog)) :
    (rReg.accessToken = generateToken rReg.user.id rReg.user.email tokenIdR
      ∧ rReg.accessToken.secret = configJwtSecret
      ∧ Redis.validateSession sReg now tokenIdR = some rReg.user.id
      ∧ remainingTTL sReg now (sessionKey tokenIdR) = some configSessionExpiry)
    ∧ (rLog.accessToken = generateToken rLog.user.id rLog.user.email tokenIdL
      ∧ rLog.accessToken.secret = configJwtSecret
      ∧ Redis.validateSession sLog now tokenIdL = some rLog.user.id
      ∧ remainingTTL sLog now (sessionKey tokenIdL) = some configSessionExpiry)
    ∧ (rGoog.accessToken = generateToken rGoog.user.id rGoog.user.email tokenIdG
      ∧ rGoog.accessToken.secret = configJwtSecret
      ∧ Redis.validateSession sGoog now tokenIdG = some rGoog.user.id
      ∧ remainingTTL sGoog now (sessionKey tokenIdG) = some configSessionExpiry)
    ∧ redactUser { u with password_hash := x } = redactUser u := by
  obtain ⟨hr1, hr2⟩ := register_ok_shape hash dbR s now newUserIdR tokenIdR
    email password firstName lastName rReg dbReg sReg hReg
  obtain ⟨hl1, hl2⟩ := login_ok_shape cmp dbL s now tokenIdL emailL passwordL
    rLog sLog hLog
  obtain ⟨hg1, hg2⟩ := googleAuth_ok_shape dbG s now newUserIdG tokenIdG
    profile rGoog dbGoog sGoog hGoog
  subst hr2; subst hl2; subst hg2
  refine ⟨⟨hr1, ?_, ?_, ?_⟩, ⟨hl1, ?_, ?_, ?_⟩, ⟨hg1, ?_, ?_, ?_⟩, rfl⟩
  · rw [hr1]; rfl
  · exact validateSession_storeSession s now rReg.user.id tokenIdR
  · exact remainingTTL_storeSession s now rReg.user.id tokenIdR
  · rw [hl1]; rfl
  · exact validateSession_storeSession s now rLog.user.id tokenIdL
  · exact remainingTTL_storeSession s now rLog.user.id tokenIdL
  · rw [hg1]; rfl
  · exact validateSession_storeSession s now rGoog.user.id tokenIdG
  · exact remainingTTL_storeSession s now rGoog.user.id tokenIdG

/-- Witness for C8: one concrete successful run of each path. -/
theorem claim_C8_witness :
    AuthService.register (fun p => String.append "H" p) [] [] 7 "uid1" "tok1"
        "x@y.com" "secret123" (some "X") none
      = .ok (regWitnessResponse, [newEmailRow],
          storeSession [] 7 "uid1" "tok1" configSessionExpiry)
    ∧ AuthService.login (fun _ _ => true) [emailUser] [] 7 "tok2"
        "a@b.com" "secret123"
      = .ok (logWitnessResponse, storeSession [] 7 "u2" "tok2" configSessionExpiry)
    ∧ AuthService.googleAuth [googleOnlyUser] [] 7 "uid9" "tok3"
        { id := "g123", displayName := none, emails := ["g@x.com"], photos := [] }
      = .ok (googWitnessResponse, [googleOnlyUser],
          storeSession [] 7 "u1" "tok3" configSessionExpiry)
    ∧ ((regWitnessResponse.accessToken = generateToken regWitnessResponse.user.id
          regWitnessResponse.user.email "tok1"
        ∧ regWitnessResponse.accessToken.secret = configJwtSecret
        ∧ Redis.validateSession (storeSession [] 7 "uid1" "tok1" configSessionExpiry)
            7 "tok1" = some regWitnessResponse.user.id
        ∧ remainingTTL (storeSession [] 7 "uid1" "tok1" configSessionExpiry) 7
            (sessionKey "tok1") = some configSessionExpiry)
      ∧ (logWitnessResponse.accessToken = generateToken logWitnessResponse.user.id
          logWitnessResponse.user.email "tok2"
        ∧ logWitnessResponse.accessToken.secret = configJwtSecret
        ∧ Redis.validateSession (storeSession [] 7 "u2" "tok2" configSessionExpiry)
            7 "tok2" = some logWitnessResponse.user.id
        ∧ remainingTTL (storeSession [] 7 "u2" "tok2" configSessionExpiry) 7
            (sessionKey "tok2") = some configSessionExpiry)
      ∧ (googWitnessResponse.accessToken = generateToken googWitnessResponse.user.id
          googWitnessResponse.user.email "tok3"
        ∧ googWitnessResponse.accessToken.secret = configJwtSecret
        ∧ Redis.validateSession (storeSession [] 7 "u1" "tok3" configSessionExpiry)
            7 "tok3" = some googWitnessResponse.user.id
        ∧ remainingTTL (storeSession [] 7 "u1" "tok3" configSessionExpiry) 7
            (sessionKey "tok3") = some configSessionExpiry)
      ∧ redactUser { emailUser with password_hash := some "Z" }
          = redactUser emailUser) :=
  ⟨rfl, rfl, rfl,
   claim_C8 (fun p => String.append "H" p) (fun _ _ => true) [] [emailUser]
     [googleOnlyUser] [] 7 "uid1" "uid9" "tok1" "tok2" "tok3"
     "x@y.com" "secret123" "a@b.com" "secret123" (some "X") none
     { id := "g123", displayName := none, emails := ["g@x.com"], photos := [] }
     emailUser (some "Z") regWitnessResponse logWitnessResponse
     googWitnessResponse [newEmailRow] [googleOnlyUser]
     (storeSession [] 7 "uid1" "tok1" configSessionExpiry)
     (storeSession [] 7 "u2" "tok2" configSessionExpiry)
     (storeSession [] 7 "u1" "tok3" configSessionExpiry)
     rfl rfl rfl⟩

theorem applyUpdate_id (now : Nat) (upd : UserModel.UserUpdate) (u : User) :
    (UserModel.applyUpdate now upd u).id = u.id := rfl

theorem update_find_of_nodup (db : Database) (now : Nat)
    (upd : UserModel.UserUpdate) (u : User) (hu : u ∈ db)
    (hnd : (db.map User.id).Nodup) :
    (db.map (fun v => if v.id == u.id then UserModel.applyUpdate now upd v else v)).find?
        (fun v => v.id == u.id)
      = some (UserModel.applyUpdate now upd u) := by
  induction db with
  | nil => cases hu
  | cons a t ih =>
    rcases List.mem_cons.mp hu with rfl | hut
    · rw [List.map_cons, if_pos (by simp)]
      exact List.find?_cons_of_pos _ (by simp [applyUpdate_id])
    · have hne : a.id ≠ u.id := by
        intro hca
        have : u.id ∈ t.map User.id := List.mem_map_of_mem User.id hut
        rw [← hca] at this
        exact (List.nodup_cons.mp hnd).1 this
      rw [List.map_cons, if_neg (by simpa using hne)]
      rw [List.find?_cons_of_neg _ (by simpa using hne)]
      exact ih hut (List.nodup_cons.mp hnd).2

theorem findByGoogleId_update (db : Database) (now : Nat)
    (upd : UserModel.UserUpdate) (u : User) (gid : String)
    (hu : u ∈ db) (hnd : (db.map User.id).Nodup)
    (hg : ∀ v ∈ db, (v.google_id == some gid && v.is_active) = false)
    (hupd : upd.google_id = some gid) (hact : u.is_active = true) :
    UserModel.findByGoogleId
        (db.map (fun v => if v.id == u.id then UserModel.applyUpdate now upd v else v))
        gid
      = some (UserModel.applyUpdate now upd u) := by
  unfold UserModel.findByGoogleId
  induction db with
  | nil => cases hu
  | cons a t ih =>
    rcases List.mem_cons.mp hu with rfl | hut
    · rw [List.map_cons, if_pos (by simp)]
      refine List.find?_cons_of_pos _ ?_
      have hgoog : (UserModel.applyUpdate now upd u).google_id = some gid := by
        unfold UserModel.applyUpdate
        rw [hupd]
      have hactive : (UserModel.applyUpdate now upd u).is_active = u.is_active := rfl
      simp [hgoog, hactive, hact]
    · have hne : a.id ≠ u.id := by
        intro hca
        have : u.id ∈ t.map User.id := List.mem_map_of_mem User.id hut
        rw [← hca] at this
        exact (List.nodup_cons.mp hnd).1 this
      rw [List.map_cons, if_neg (by simpa using hne)]
      rw [List.find?_cons_of_neg _ (by simp [hg a (List.mem_cons_self a t)])]
      exact ih hut (List.nodup_cons.mp hnd).2
        (fun v hv => hg v (List.mem_cons_of_mem a hv))

theorem findByGoogleId_append_single (db : Database) (newU : User)
    (gid : String)
    (hg : ∀ v ∈ db, (v.google_id == some gid && v.is_active) = false)
    (hnew : (newU.google_id == some gid && newU.is_active) = true) :
    UserModel.findByGoogleId (db ++ [newU]) gid = some newU := by
  unfold UserModel.findByGoogleId
  induction db with
  | nil => exact List.find?_cons_of_pos _ hnew
  | cons a t ih =>
    rw [List.cons_append]
    rw [List.find?_cons_of_neg _ (by simp [hg a (List.mem_cons_self a t)])]
    exact ih (fun v hv => hg v (List.mem_cons_of_mem a hv))

/-- C7: Google login looks up by provider id first and answers directly
from that record; failing that it falls back to the email and links the
provider id to the matching record in place (no new row, table length
unchanged) provided no other row — active or deactivated — already holds
that provider id (otherwise the linking UPDATE is rejected with the
duplicate-key error), so a subsequent Google login with the same provider
id resolves directly by provider id; with no matching record at all and no
conflicting row it creates one carrying the provider id; and it fails with
"Email not provided by Google" when the profile carries no email. -/
theorem claim_C7 (db : Database) (s : RedisStore) (now : Nat)
    (newUserId tokenId : String) (profile : AuthService.GoogleProfile)
    (u : User) (upd : UserModel.UserUpdate) (d : CreateUserData)
    (hgid : profile.id ≠ "")
    (hupd : upd = { google_id := some profile.id
                    auth_method := some "google"
                    profile_picture_url :=
                      some (jsOrElse profile.photos.head? u.profile_picture_url) })
    (hd : d = { email := toLowerCase (profile.emails.head?.getD "")
                password_hash := none
                first_name := (jsSplit (profile.displayName.getD "") ' ').get? 0
                last_name := (jsSplit (profile.displayName.getD "") ' ').get? 1
                google_id := some profile.id
                auth_method := "google"
                profile_picture_url := profile.photos.head? }) :
    (jsTruthy profile.emails.head? = false →
      AuthService.googleAuth db s now newUserId tokenId profile
        = .error "Email not provided by Google")
    ∧ (jsTruthy profile.emails.head? = true →
        UserModel.findByGoogleId db profile.id = some u →
        AuthService.googleAuth db s now newUserId tokenId profile
          = .ok ({ accessToken := generateToken u.id u.email tokenId
                   user := redactUser u }, db,
                 storeSession s now u.id tokenId configSessionExpiry))
    ∧ (jsTruthy profile.emails.head? = true →
        UserModel.findByGoogleId db profile.id = none →
        UserModel.findByEmail db (profile.emails.head?.getD "") = some u →
        (db.map User.id).Nodup →
        db.any (fun v => !(v.id == u.id) && v.google_id == some profile.id)
          = false →
        AuthService.googleAuth db s now newUserId tokenId profile
          = .ok ({ accessToken := generateToken u.id u.email tokenId
                   user := redactUser (UserModel.applyUpdate now upd u) },
                 UserModel.updatedTable db now u.id upd,
                 storeSession s now u.id tokenId configSessionExpiry)
        ∧ (UserModel.updatedTable db now u.id upd).length = db.length
        ∧ UserModel.findByGoogleId (UserModel.updatedTable db now u.id upd)
            profile.id = some (UserModel.applyUpdate now upd u))
    ∧ (jsTruthy profile.emails.head? = true →
        UserModel.findByGoogleId db profile.id = none →
        UserModel.findByEmail db (profile.emails.head?.getD "") = some u →
        db.any (fun v => !(v.id == u.id) && v.google_id == some profile.id)
          = true →
        AuthService.googleAuth db s now newUserId tokenId profile
          = .error
            "duplicate key value violates unique constraint \"users_google_id_key\"")
    ∧ (jsTruthy profile.emails.head? = true →
        UserModel.findByGoogleId db profile.id = none →
        UserModel.findByEmail db (profile.emails.head?.getD "") = none →
        db.any (fun v => v.email == toLowerCase (profile.emails.head?.getD ""))
          = false →
        db.any (fun v => v.google_id == some profile.id) = false →
        AuthService.googleAuth db s now newUserId tokenId profile
          = .ok ({ accessToken := generateToken newUserId
                     (toLowerCase (profile.emails.head?.getD "")) tokenId
                   user := redactUser (UserModel.createdRow now newUserId d) },
                 db ++ [UserModel.createdRow now newUserId d],
                 storeSession s now newUserId tokenId configSessionExpiry)
        ∧ UserModel.findByGoogleId (db ++ [UserModel.createdRow now newUserId d])
            profile.id = some (UserModel.createdRow now newUserId d)) := by
  subst hupd
  subst hd
  have hgidT : jsOrNull (some profile.id) = some profile.id := by
    simp [jsOrNull, jsTruthy, hgid]
  refine ⟨?_, ?_, ?_, ?_, ?_⟩
  · intro hjs
    simp [AuthService.googleAuth, hjs]
  · intro hjs hfound
    simp [AuthService.googleAuth, hjs, hfound]
  · intro hjs hgnone he hnd hnc
    have he2 : db.find?
        (fun v => v.email == toLowerCase (profile.emails.head?.getD "")
          && v.is_active) = some u := he
    have hu : u ∈ db := List.mem_of_find?_eq_some he2
    have hfound := List.find?_some he2
    have hact : u.is_active = true := (Bool.and_eq_true_iff.mp hfound).2
    have hg2 : ∀ v ∈ db, (v.google_id == some profile.id && v.is_active) = false := by
      intro v hv
      exact Bool.eq_false_iff.mpr
        (List.find?_eq_none.mp hgnone v hv)
    have hfind := update_find_of_nodup db now
      { google_id := some profile.id
        auth_method := some "google"
        profile_picture_url :=
          some (jsOrElse profile.photos.head? u.profile_picture_url) }
      u hu hnd
    have hfind2 : (UserModel.updatedTable db now u.id
        { google_id := some profile.id
          auth_method := some "google"
          profile_picture_url :=
            some (jsOrElse profile.photos.head? u.profile_picture_url) }).find?
        (fun v => v.id == u.id)
        = some (UserModel.applyUpdate now
            { google_id := some profile.id
              auth_method := some "google"
              profile_picture_url :=
                some (jsOrElse profile.photos.head? u.profile_picture_url) } u) :=
      hfind
    have hgoog2 := findByGoogleId_update db now
      { google_id := some profile.id
        auth_method := some "google"
        profile_picture_url :=
          some (jsOrElse profile.photos.head? u.profile_picture_url) }
      u profile.id hu hnd hg2 rfl hact
    have hupdok : UserModel.update db now u.id
        { google_id := some profile.id
          auth_method := some "google"
          profile_picture_url :=
            some (jsOrElse profile.photos.head? u.profile_picture_url) }
        = .ok (some (UserModel.applyUpdate now
            { google_id := some profile.id
              auth_method := some "google"
              profile_picture_url :=
                some (jsOrElse profile.photos.head? u.profile_picture_url) } u),
          UserModel.updatedTable db now u.id
            { google_id := some profile.id
              auth_method := some "google"
              profile_picture_url :=
                some (jsOrElse profile.photos.head? u.profile_picture_url) }) := by
      unfold UserModel.update
      rw [if_neg (by simp [hnc])]
      rw [hfind2]
    have hstep : AuthService.googleAuth db s now newUserId tokenId profile
        = (match UserModel.update db now u.id
              { google_id := some profile.id
                auth_method := some "google"
                profile_picture_url :=
                  some (jsOrElse profile.photos.head? u.profile_picture_url) } with
           | .error msg =>
             (Except.error msg :
               Except String (AuthResponse × Database × RedisStore))
           | .ok (none, _) => .error "Failed to authenticate with Google"
           | .ok (some user, db2) =>
             Except.ok
               ({ accessToken := generateToken user.id user.email tokenId
                  user := redactUser user }, db2,
                storeSession s now user.id tokenId configSessionExpiry)) := by
      simp only [AuthService.googleAuth]
      rw [if_neg (by simp [hjs]), hgnone, he]
    refine ⟨?_, ?_, ?_⟩
    · rw [hstep, hupdok]
      rfl
    · simp [UserModel.updatedTable]
    · exact hgoog2
  · intro hjs hgnone he hnc
    have hupderr : UserModel.update db now u.id
        { google_id := some profile.id
          auth_method := some "google"
          profile_picture_url :=
            some (jsOrElse profile.photos.head? u.profile_picture_url) }
        = .error
          "duplicate key value violates unique constraint \"users_google_id_key\"" := by
      unfold UserModel.update
      rw [if_pos (by simp [hnc])]
    have hstep : AuthService.googleAuth db s now newUserId tokenId profile
        = (match UserModel.update db now u.id
              { google_id := some profile.id
                auth_method := some "google"
                profile_picture_url :=
                  some (jsOrElse profile.photos.head? u.profile_picture_url) } with
           | .error msg =>
             (Except.error msg :
               Except String (AuthResponse × Database × RedisStore))
           | .ok (none, _) => .error "Failed to authenticate with Google"
           | .ok (some user, db2) =>
             Except.ok
               ({ accessToken := generateToken user.id user.email tokenId
                  user := redactUser user }, db2,
                storeSession s now user.id tokenId configSessionExpiry)) := by
      simp only [AuthService.googleAuth]
      rw [if_neg (by simp [hjs]), hgnone, he]
    rw [hstep, hupderr]
  · intro hjs hgnone henone hce hcg
    have hg2 : ∀ v ∈ db, (v.google_id == some profile.id && v.is_active) = false := by
      intro v hv
      exact Bool.eq_false_iff.mpr
        (List.find?_eq_none.mp hgnone v hv)
    have hcreateok : UserModel.create db now newUserId
        { email := toLowerCase (profile.emails.head?.getD "")
          password_hash := none
          first_name := (jsSplit (profile.displayName.getD "") ' ').get? 0
          last_name := (jsSplit (profile.displayName.getD "") ' ').get? 1
          google_id := some profile.id
          auth_method := "google"
          profile_picture_url := profile.photos.head? }
        = .ok (UserModel.createdRow now newUserId
            { email := toLowerCase (profile.emails.head?.getD "")
              password_hash := none
              first_name := (jsSplit (profile.displayName.getD "") ' ').get? 0
              last_name := (jsSplit (profile.displayName.getD "") ' ').get? 1
              google_id := some profile.id
              auth_method := "google"
              profile_picture_url := profile.photos.head? },
          db ++ [UserModel.createdRow now newUserId
            { email := toLowerCase (profile.emails.head?.getD "")
              password_hash := none
              first_name := (jsSplit (profile.displayName.getD "") ' ').get? 0
              last_name := (jsSplit (profile.displayName.getD "") ' ').get? 1
              google_id := some profile.id
              auth_method := "google"
              profile_picture_url := profile.photos.head? }]) := by
      unfold UserModel.create
      rw [if_neg (by simp [hce])]
      rw [if_neg (by rw [show jsOrNull (some profile.id) = some profile.id from hgidT]; simp [hcg])]
    have hnew : ((UserModel.createdRow now newUserId
        { email := toLowerCase (profile.emails.head?.getD "")
          password_hash := none
          first_name := (jsSplit (profile.displayName.getD "") ' ').get? 0
          last_name := (jsSplit (profile.displayName.getD "") ' ').get? 1
          google_id := some profile.id
          auth_method := "google"
          profile_picture_url := profile.photos.head? }).google_id
          == some profile.id
        && (UserModel.createdRow now newUserId
        { email := toLowerCase (profile.emails.head?.getD "")
          password_hash := none
          first_name := (jsSplit (profile.displayName.getD "") ' ').get? 0
          last_name := (jsSplit (profile.displayName.getD "") ' ').get? 1
          google_id := some profile.id
          auth_method := "google"
          profile_picture_url := profile.photos.head? }).is_active) = true := by
      simp [UserModel.createdRow, hgidT]
    have happend := findByGoogleId_append_single db
      (UserModel.createdRow now newUserId
        { email := toLowerCase (profile.emails.head?.getD "")
          password_hash := none
          first_name := (jsSplit (profile.displayName.getD "") ' ').get? 0
          last_name := (jsSplit (profile.displayName.getD "") ' ').get? 1
          google_id := some profile.id
          auth_method := "google"
          profile_picture_url := profile.photos.head? })
      profile.id hg2 hnew
    have hstep : AuthService.googleAuth db s now newUserId tokenId profile
        = (match (match UserModel.create db now newUserId
              { email := toLowerCase (profile.emails.head?.getD "")
                password_hash := none
                first_name := (jsSplit (profile.displayName.getD "") ' ').get? 0
                last_name := (jsSplit (profile.displayName.getD "") ' ').get? 1
                google_id := some profile.id
                auth_method := "google"
                profile_picture_url := profile.photos.head? } with
             | .error msg =>
               (Except.error msg : Except String (Option User × Database))
             | .ok created => .ok (some created.1, created.2)) with
           | .error msg =>
             (Except.error msg :
               Except String (AuthResponse × Database × RedisStore))
           | .ok (none, _) => .error "Failed to authenticate with Google"
           | .ok (some user, db2) =>
             Except.ok
               ({ accessToken := generateToken user.id user.email tokenId
                  user := redactUser user }, db2,
                storeSession s now user.id tokenId configSessionExpiry)) := by
      simp only [AuthService.googleAuth]
      rw [if_neg (by simp [hjs]), hgnone, henone]
    refine ⟨?_, ?_⟩
    · rw [hstep, hcreateok]
      rfl
    · exact happend

/-- Witness for C7: linking `sampleGoogleProfile` to the email-registered
`emailUser`. -/
theorem claim_C7_witness :
    sampleGoogleProfile.id ≠ ""
    ∧ sampleLinkUpdate
      = { google_id := some sampleGoogleProfile.id
          auth_method := some "google"
          profile_picture_url :=
            some (jsOrElse sampleGoogleProfile.photos.head?
              emailUser.profile_picture_url) }
    ∧ sampleCreateData
      = { email := toLowerCase (sampleGoogleProfile.emails.head?.getD "")
          password_hash := none
          first_name :=
            (jsSplit (sampleGoogleProfile.displayName.getD "") ' ').get? 0
          last_name :=
            (jsSplit (sampleGoogleProfile.displayName.getD "") ' ').get? 1
          google_id := some sampleGoogleProfile.id
          auth_method := "google"
          profile_picture_url := sampleGoogleProfile.photos.head? }
    ∧ ((jsTruthy sampleGoogleProfile.emails.head? = false →
        AuthService.googleAuth [emailUser] [] 3 "uid9" "tok7" sampleGoogleProfile
          = .error "Email not provided by Google")
      ∧ (jsTruthy sampleGoogleProfile.emails.head? = true →
          UserModel.findByGoogleId [emailUser] sampleGoogleProfile.id
            = some emailUser →
          AuthService.googleAuth [emailUser] [] 3 "uid9" "tok7" sampleGoogleProfile
            = .ok ({ accessToken := generateToken emailUser.id emailUser.email "tok7"
                     user := redactUser emailUser }, [emailUser],
                   storeSession [] 3 emailUser.id "tok7" configSessionExpiry))
      ∧ (jsTruthy sampleGoogleProfile.emails.head? = true →
          UserModel.findByGoogleId [emailUser] sampleGoogleProfile.id = none →
          UserModel.findByEmail [emailUser]
            (sampleGoogleProfile.emails.head?.getD "") = some emailUser →
          (List.map User.id [emailUser]).Nodup →
          [emailUser].any (fun v => !(v.id == emailUser.id)
            && v.google_id == some sampleGoogleProfile.id) = false →
          AuthService.googleAuth [emailUser] [] 3 "uid9" "tok7" sampleGoogleProfile
            = .ok ({ accessToken := generateToken emailUser.id emailUser.email "tok7"
                     user := redactUser
                       (UserModel.applyUpdate 3 sampleLinkUpdate emailUser) },
                   UserModel.updatedTable [emailUser] 3 emailUser.id sampleLinkUpdate,
                   storeSession [] 3 emailUser.id "tok7" configSessionExpiry)
          ∧ (UserModel.updatedTable [emailUser] 3 emailUser.id sampleLinkUpdate).length
              = [emailUser].length
          ∧ UserModel.findByGoogleId
              (UserModel.updatedTable [emailUser] 3 emailUser.id sampleLinkUpdate)
              sampleGoogleProfile.id
              = some (UserModel.applyUpdate 3 sampleLinkUpdate emailUser))
      ∧ (jsTruthy sampleGoogleProfile.emails.head? = true →
          UserModel.findByGoogleId [emailUser] sampleGoogleProfile.id = none →
          UserModel.findByEmail [emailUser]
            (sampleGoogleProfile.emails.head?.getD "") = some emailUser →
          [emailUser].any (fun v => !(v.id == emailUser.id)
            && v.google_id == some sampleGoogleProfile.id) = true →
          AuthService.googleAuth [emailUser] [] 3 "uid9" "tok7" sampleGoogleProfile
            = .error
              "duplicate key value violates unique constraint \"users_google_id_key\"")
      ∧ (jsTruthy sampleGoogleProfile.emails.head? = true →
          UserModel.findByGoogleId [emailUser] sampleGoogleProfile.id = none →
          UserModel.findByEmail [emailUser]
            (sampleGoogleProfile.emails.head?.getD "") = none →
          [emailUser].any (fun v => v.email
            == toLowerCase (sampleGoogleProfile.emails.head?.getD "")) = false →
          [emailUser].any (fun v => v.google_id == some sampleGoogleProfile.id)
            = false →
          AuthService.googleAuth [emailUser] [] 3 "uid9" "tok7" sampleGoogleProfile
            = .ok ({ accessToken := generateToken "uid9"
                       (toLowerCase (sampleGoogleProfile.emails.head?.getD ""))
                       "tok7"
                     user := redactUser
                       (UserModel.createdRow 3 "uid9" sampleCreateData) },
                   [emailUser] ++ [UserModel.createdRow 3 "uid9" sampleCreateData],
                   storeSession [] 3 "uid9" "tok7" configSessionExpiry)
          ∧ UserModel.findByGoogleId
              ([emailUser] ++ [UserModel.createdRow 3 "uid9" sampleCreateData])
              sampleGoogleProfile.id
              = some (UserModel.createdRow 3 "uid9" sampleCreateData))) :=
  ⟨by decide, rfl, rfl,
   claim_C7 [emailUser] [] 3 "uid9" "tok7" sampleGoogleProfile emailUser
     sampleLinkUpdate sampleCreateData (by decide) rfl rfl⟩


end NexusX
